import Mathlib

/-!
Verification development for the medical-report analysis service
(`src/app1.py`): a Flask endpoint that saves an uploaded image, optionally
compresses it, sends it to a remote OCR service, feeds the extracted text to
a remote LLM, renders the answer to a PDF and returns a JSON response.

The embedding below is shallow: the pure string/list/arithmetic logic of the
source is translated directly; the outcomes of external effects (filesystem
writes, the two remote HTTP calls, the PDF library) are inputs of the model,
carried in an explicit environment record, so that the handler's control
flow — which the claims are about — is an ordinary total function.
-/

namespace MedAssist

/-- `UPLOAD_FOLDER` constant of `app1.py` (line 13). -/
def UPLOAD_FOLDER : String := "/tmp/uploads"

/-- `OUTPUT_FOLDER` constant of `app1.py` (line 14). -/
def OUTPUT_FOLDER : String := "/tmp/outputs"

/-- The exact data-quality error message returned by `analyze`
(`app1.py` line 138). -/
def dataQualityMsg : String :=
  "Could not read text. Image might be blurry or not a medical report."

/-! ## OCR client (`get_ocr_text`, `app1.py` lines 74-89) -/

/-- A response of the remote OCR endpoint as `get_ocr_text` consumes it:
the HTTP status code, the raw response text (`resp.text`), and the parsed
JSON array of blocks.  Each block is a JSON object that may or may not carry
a `"text"` field; we model a block by that optional field, the only one the
code reads. -/
structure OcrResponse where
  status : Nat
  body : String
  blocks : List (Option String)
  deriving DecidableEq, Repr

/-- `block["text"]` lookups of the list comprehension in `app1.py` line 88:
a block without the `"text"` key raises `KeyError` (modelled as
`Except.error`); otherwise the field values are returned in order. -/
def extractTexts : List (Option String) → Except String (List String)
  | [] => .ok []
  | none :: _ => .error "KeyError: 'text'"
  | some t :: rest => (extractTexts rest).map (t :: ·)

/-- Python's `str.strip()`: remove leading and trailing whitespace. -/
def stripChars (s : String) : String :=
  String.mk
    (((s.data.dropWhile Char.isWhitespace).reverse.dropWhile
        Char.isWhitespace).reverse)

/-- The pure concatenation of `app1.py` line 88:
`" ".join([t.strip() for t in texts if t.strip()])` — strip every fragment,
drop the ones that strip to the empty string, join the rest with single
spaces. -/
def stripJoin (texts : List String) : String :=
  " ".intercalate ((texts.map stripChars).filter (fun t => t ≠ ""))

/-- `get_ocr_text` (`app1.py` lines 74-89), applied to the response of the
already-performed HTTP POST.  A non-200 status raises
`Exception(f"OCR API Error: {resp.text}")` (line 85); otherwise the block
texts are extracted (raising `KeyError` on a block without the field) and
concatenated. -/
def get_ocr_text (resp : OcrResponse) : Except String String :=
  if resp.status ≠ 200 then
    .error ("OCR API Error: " ++ resp.body)
  else
    (extractTexts resp.blocks).map stripJoin

theorem extractTexts_map_some (ts : List String) :
    extractTexts (ts.map some) = .ok ts := by
  induction ts with
  | nil => rfl
  | cons t rest ih => simp [extractTexts, ih, Except.map]

theorem extractTexts_error_of_none {bs : List (Option String)}
    (h : none ∈ bs) : ∃ m, extractTexts bs = .error m := by
  induction bs with
  | nil => cases h
  | cons b rest ih =>
    cases b with
    | none => exact ⟨"KeyError: 'text'", rfl⟩
    | some t =>
      rcases ih (by simpa using h) with ⟨m, hm⟩
      exact ⟨m, by simp [extractTexts, hm, Except.map]⟩

theorem stripJoin_eq_empty {texts : List String}
    (h : ∀ t ∈ texts, stripChars t = "") : stripJoin texts = "" := by
  unfold stripJoin
  have : (texts.map stripChars).filter (fun t => t ≠ "") = [] := by
    rw [List.filter_eq_nil_iff]
    intro a ha
    rcases List.mem_map.mp ha with ⟨t, ht, rfl⟩
    simpa using h t ht
  rw [this]
  rfl

/-! ## Image optimizer (`optimize_image`, `app1.py` lines 50-72) -/

/-- The facts about an image file that `optimize_image` reads: its size on
disk in bytes (`os.path.getsize`), and the pixel dimensions and mode read
after `Image.open`. -/
structure ImgFile where
  sizeBytes : Nat
  width : Nat
  height : Nat
  mode : String
  deriving DecidableEq, Repr

/-- `os.path.basename`: the final path component. -/
def basename (p : String) : String :=
  (p.splitOn "/").getLastD p

/-- `optimize_image` (`app1.py` lines 50-72) with `max_size_kb = 200`.
The guard `file_size <= max_size_kb` compares `size/1024` (exact in floating
point, the divisor being a power of two) against 200, i.e. holds iff
`sizeBytes ≤ 200 * 1024`.  The result is the path the function returns
together with the path of the newly created file, if any: below the
threshold the input path is returned and nothing is written (lines 53-54);
above it, the image is re-encoded (mode conversion, optional resize to
width 1024, quality-40 save — pixel contents are handled by the external
imaging library and are not part of this model) into a fresh
`compressed_`-prefixed file in the upload folder (lines 67-72). -/
def optimize_image (img : ImgFile) (image_path : String) :
    String × Option String :=
  if img.sizeBytes ≤ 200 * 1024 then
    (image_path, none)
  else
    let optimized_filename := "compressed_" ++ basename image_path
    let optimized_path := UPLOAD_FOLDER ++ "/" ++ optimized_filename
    (optimized_path, some optimized_path)

/-! ## Housekeeping (`cleanup_old_files`, `app1.py` lines 26-35) -/

/-- A file in one of the temporary folders, as the cleanup sweep sees it:
its name and its last-modified time (`st_mtime`) in seconds. -/
structure FsFile where
  name : String
  mtime : Int
  deriving DecidableEq, Repr

/-- `cleanup_old_files` (`app1.py` lines 26-35) on one folder, with `now`
the current time: every file with `st_mtime < now - 600` is removed
(line 32-33); the function returns the files that remain. -/
def cleanup_old_files (now : Int) (files : List FsFile) : List FsFile :=
  files.filter (fun f => ¬ (f.mtime < now - 600))

/-! ## PDF renderer (`generate_pdf`, `app1.py` lines 91-111) -/

/-- The encoding step of `app1.py` line 106:
`text.encode('latin-1', 'replace').decode('latin-1')` maps every character
above U+00FF to `'?'` and leaves the rest unchanged. -/
def latin1Replace (s : String) : String :=
  String.mk (s.data.map (fun c => if c.toNat ≤ 255 then c else '?'))

/-- The PDF library's text cells (`app1.py` lines 100, 107): with the
built-in Latin-1 `Arial` font the library raises a `UnicodeEncodeError` if
the text holds a character outside the single-byte range, and otherwise
renders it.  The produced document is modelled by the text it shows: the
title cell of line 100 followed by the body of line 107. -/
def fpdfRender (title body : String) : Except String String :=
  if (title ++ body).data.all (fun c => c.toNat ≤ 255) then
    .ok (title ++ "\n" ++ body)
  else
    .error "UnicodeEncodeError"

/-- `generate_pdf` (`app1.py` lines 91-111): replace non-Latin-1 characters
(line 106), render title and body, write the document to
`OUTPUT_FOLDER/filename` (lines 109-110) and return that path.  The result
is the written path paired with the rendered document text. -/
def generate_pdf (text_content filename : String) :
    Except String (String × String) :=
  let safe_text := latin1Replace text_content
  (fpdfRender "Medical Report Analysis" safe_text).map
    (fun content => (OUTPUT_FOLDER ++ "/" ++ filename, content))

/-! ## Request handler (`analyze`, `app1.py` lines 118-210) -/

/-- Body of a JSON response produced by `analyze`: either the error payload
`{"error": msg}` or the success payload
`{"success": true, "analysis": ..., "pdf_url": ...}`. -/
inductive RespBody where
  | err (msg : String)
  | success (analysis : String) (pdfUrl : String)
  deriving DecidableEq, Repr

/-- What `/analyze` hands back to the web framework: a JSON body with a
status code, or — when an exception escapes the handler, nothing in the
function catching it — the unhandled exception, which the framework turns
into its own generic error page, not one of the handler's JSON bodies. -/
inductive HttpResp where
  | json (status : Nat) (body : RespBody)
  | unhandled (msg : String)
  deriving DecidableEq, Repr

/-- The observable actions a single `/analyze` request performs, in order:
the housekeeping sweep, the write of the uploaded file, the optimizer run,
the OCR call, the LLM invocation, the PDF write. -/
inductive Event where
  | cleanup
  | saveUpload (path : String)
  | optimize
  | ocrCall
  | llmInvoke
  | savePdf (path : String)
  deriving DecidableEq, Repr

/-- The inputs of one `/analyze` request together with the outcomes of its
external effects, each an `Except` so that any step can raise:
`hasFileField` and `origFilename` are the request's form data (lines
122-127); `reqTime` and `pdfTime` are the two `int(time.time())` reads of
lines 129 and 199; `saveResult` is `file.save` (line 131); `optimizeResult`
is the optimizer run of line 134 (returning `final_path`); `ocrResult` is
the HTTP POST inside `get_ocr_text` (line 82), whose response is then
processed by `get_ocr_text`; `llmResult` is `llm.invoke(prompt).content`
(lines 196-197); `pdfSaveResult` is the filesystem side of `generate_pdf`
(line 200). -/
structure AnalyzeEnv where
  hasFileField : Bool
  origFilename : String
  reqTime : Nat
  pdfTime : Nat
  saveResult : Except String Unit
  optimizeResult : Except String String
  ocrResult : Except String OcrResponse
  llmResult : Except String String
  pdfSaveResult : Except String Unit
  deriving Repr

/-- The `/analyze` handler (`app1.py` lines 118-210), returning the HTTP
response and the trace of performed actions.  It mirrors the source line by
line: housekeeping first (line 120); the two validation guards (lines
122-127); `file.save` (line 131) — note this is *before* the `try:` of
line 133, so its exception is not converted to a JSON 500; then, inside the
`try`, optimization, OCR, the empty-text guard (lines 137-138), the LLM
call, the PDF render, and the success payload (lines 202-206); any
exception inside the `try` yields `500 {"error": str(e)}` (lines 208-210). -/
def analyze (env : AnalyzeEnv) : HttpResp × List Event :=
  let ev0 : List Event := [Event.cleanup]
  if env.hasFileField = false then
    (.json 400 (.err "No file uploaded"), ev0)
  else if env.origFilename = "" then
    (.json 400 (.err "No file selected"), ev0)
  else
    let filename := toString env.reqTime ++ "_" ++ env.origFilename
    let filepath := UPLOAD_FOLDER ++ "/" ++ filename
    match env.saveResult with
    | .error e => (.unhandled e, ev0)
    | .ok _ =>
      let ev1 := ev0 ++ [Event.saveUpload filepath]
      match env.optimizeResult with
      | .error e => (.json 500 (.err e), ev1 ++ [Event.optimize])
      | .ok _final_path =>
        let ev2 := ev1 ++ [Event.optimize]
        match env.ocrResult with
        | .error e => (.json 500 (.err e), ev2 ++ [Event.ocrCall])
        | .ok resp =>
          let ev3 := ev2 ++ [Event.ocrCall]
          match get_ocr_text resp with
          | .error e => (.json 500 (.err e), ev3)
          | .ok raw_text =>
            if raw_text = "" then
              (.json 400 (.err dataQualityMsg), ev3)
            else
              match env.llmResult with
              | .error e => (.json 500 (.err e), ev3 ++ [Event.llmInvoke])
              | .ok analysis_text =>
                let ev4 := ev3 ++ [Event.llmInvoke]
                let pdf_filename :=
                  "Report_Analysis_" ++ toString env.pdfTime ++ ".pdf"
                match env.pdfSaveResult with
                | .error e => (.json 500 (.err e), ev4)
                | .ok _ =>
                  let ev5 :=
                    ev4 ++ [Event.savePdf (OUTPUT_FOLDER ++ "/" ++ pdf_filename)]
                  (.json 200
                    (.success analysis_text ("/download/" ++ pdf_filename)),
                    ev5)

theorem data_append (a b : String) : (a ++ b).data = a.data ++ b.data := by
  cases a; cases b; rfl

theorem latin1Replace_chars (text : String) :
    ∀ c ∈ (latin1Replace text).data, c.toNat ≤ 255 := by
  intro c hc
  simp only [latin1Replace] at hc
  rcases List.mem_map.mp hc with ⟨c0, _, rfl⟩
  by_cases h : c0.toNat ≤ 255 <;> simp [h]

/-- C3: on a 200 OCR response whose blocks all carry a `text` field, the
client returns the trimmed, non-empty fragments joined by single spaces;
on the blocks `A `, ``, `B` the result is exactly `"A B"`; and when every
fragment trims to the empty string the result is the empty string. -/
theorem C3_ocr_concatenation :
    (∀ (body : String) (ts : List String),
      get_ocr_text ⟨200, body, ts.map some⟩ = .ok (stripJoin ts)) ∧
    get_ocr_text ⟨200, "", [some "A ", some "", some "B"]⟩ = .ok "A B" ∧
    (∀ (body : String) (ts : List String), (∀ t ∈ ts, stripChars t = "") →
      get_ocr_text ⟨200, body, ts.map some⟩ = .ok "") := by
  have hok : ∀ (body : String) (ts : List String),
      get_ocr_text ⟨200, body, ts.map some⟩ = .ok (stripJoin ts) := by
    intro body ts
    simp [get_ocr_text, extractTexts_map_some, Except.map]
  refine ⟨hok, rfl, ?_⟩
  intro body ts h
  rw [hok body ts, stripJoin_eq_empty h]

theorem C3_witness :
    get_ocr_text ⟨200, "resp", [some "  ", some ""]⟩ = .ok "" :=
  C3_ocr_concatenation.2.2 "resp" ["  ", ""] (by decide)

/-- C7: on any non-200 OCR response the client raises, the error message
contains the response body, and no text is returned. -/
theorem C7_non200_raises (resp : OcrResponse) (h : resp.status ≠ 200) :
    get_ocr_text resp = .error ("OCR API Error: " ++ resp.body) ∧
    (∃ pre post, "OCR API Error: " ++ resp.body = pre ++ resp.body ++ post) ∧
    (∀ t, get_ocr_text resp ≠ .ok t) := by
  refine ⟨by simp [get_ocr_text, h], ⟨"OCR API Error: ", "", by simp⟩, ?_⟩
  intro t hc
  simp [get_ocr_text, h] at hc

theorem C7_witness :
    get_ocr_text ⟨401, "invalid key", []⟩ =
        .error ("OCR API Error: " ++ "invalid key") ∧
    (∃ pre post, "OCR API Error: " ++ "invalid key" =
        pre ++ "invalid key" ++ post) ∧
    (∀ t, get_ocr_text ⟨401, "invalid key", []⟩ ≠ .ok t) :=
  C7_non200_raises ⟨401, "invalid key", []⟩ (by decide)

/-- C4: an input of at most 200 KB (200·1024 bytes) is returned unchanged
by the optimizer and no new file is created. -/
theorem C4_small_input_unchanged (img : ImgFile) (path : String)
    (h : img.sizeBytes ≤ 200 * 1024) :
    optimize_image img path = (path, none) := by
  simp [optimize_image, h]

theorem C4_witness :
    optimize_image ⟨204800, 3000, 2000, "RGBA"⟩ "/tmp/uploads/1_scan.png" =
      ("/tmp/uploads/1_scan.png", none) :=
  C4_small_input_unchanged ⟨204800, 3000, 2000, "RGBA"⟩
    "/tmp/uploads/1_scan.png" (by decide)

/-- C8: for every input string the PDF renderer succeeds — the encoding
step replaces each character outside Latin-1 by the placeholder `?` instead
of raising — and the produced document is non-empty. -/
theorem C8_pdf_renderer_total (text filename : String) :
    generate_pdf text filename =
      .ok (OUTPUT_FOLDER ++ "/" ++ filename,
        "Medical Report Analysis" ++ "\n" ++ latin1Replace text) ∧
    ("Medical Report Analysis" ++ "\n" ++ latin1Replace text) ≠ "" ∧
    (latin1Replace text).data =
      text.data.map (fun c => if c.toNat ≤ 255 then c else '?') := by
  refine ⟨?_, ?_, rfl⟩
  · simp only [generate_pdf, fpdfRender, Except.map, data_append]
    rw [List.all_append]
    simp only [List.all_eq_true, decide_eq_true_eq, Bool.and_eq_true]
    rw [if_pos]
    exact ⟨by decide, latin1Replace_chars text⟩
  · intro hEq
    have hd := congrArg String.data hEq
    rw [data_append, data_append] at hd
    simp [List.append_eq_nil] at hd

/-- C1: when the request passes both validation guards, the upload is
saved, the optimizer succeeds and OCR returns the empty string, `/analyze`
answers `400` with the exact data-quality message and the LLM is never
invoked. -/
theorem C1_empty_ocr_text (env : AnalyzeEnv)
    (h1 : env.hasFileField = true) (h2 : env.origFilename ≠ "")
    (h3 : env.saveResult = .ok ()) (h4 : ∃ p, env.optimizeResult = .ok p)
    (h5 : ∃ resp, env.ocrResult = .ok resp ∧ get_ocr_text resp = .ok "") :
    (analyze env).1 = .json 400 (.err dataQualityMsg) ∧
    Event.llmInvoke ∉ (analyze env).2 := by
  rcases h4 with ⟨p, hp⟩
  rcases h5 with ⟨resp, hresp, hempty⟩
  constructor <;> simp [analyze, h1, h2, h3, hp, hresp, hempty]

theorem C1_witness :
    (analyze ⟨true, "scan.png", 100, 100, .ok (),
        .ok "/tmp/uploads/100_scan.png", .ok ⟨200, "[]", []⟩,
        .ok "unused", .ok ()⟩).1 = .json 400 (.err dataQualityMsg) ∧
    Event.llmInvoke ∉ (analyze ⟨true, "scan.png", 100, 100, .ok (),
        .ok "/tmp/uploads/100_scan.png", .ok ⟨200, "[]", []⟩,
        .ok "unused", .ok ()⟩).2 :=
  C1_empty_ocr_text _ rfl (by decide) rfl ⟨_, rfl⟩ ⟨⟨200, "[]", []⟩, rfl, rfl⟩

/-- C6: on every `/analyze` request the housekeeping sweep is the first
action performed, and the sweep keeps a file of a folder exactly when its
last-modified time is at most 600 seconds in the past — so a file 601
seconds old is deleted and one 599 seconds old is retained. -/
theorem C6_housekeeping :
    (∀ env : AnalyzeEnv, ((analyze env).2).head? = some Event.cleanup) ∧
    (∀ (now : Int) (files : List FsFile) (f : FsFile), f ∈ files →
      (f ∈ cleanup_old_files now files ↔ now - 600 ≤ f.mtime)) := by
  constructor
  · intro env
    unfold analyze
    repeat' split
    all_goals simp
  · intro now files f hf
    simp [cleanup_old_files, List.mem_filter, hf, not_lt]

theorem C6_witness :
    ((analyze ⟨true, "a.png", 7, 7, .ok (), .ok "p",
        .ok ⟨200, "", []⟩, .ok "x", .ok ()⟩).2).head? =
      some Event.cleanup ∧
    (⟨"aged601", 1000 - 601⟩ : FsFile) ∉
      cleanup_old_files 1000 [⟨"aged601", 1000 - 601⟩] ∧
    (⟨"aged599", 1000 - 599⟩ : FsFile) ∈
      cleanup_old_files 1000 [⟨"aged599", 1000 - 599⟩] := by
  refine ⟨C6_housekeeping.1 _, ?_, ?_⟩
  · intro hmem
    have h := (C6_housekeeping.2 1000 [⟨"aged601", 1000 - 601⟩]
      ⟨"aged601", 1000 - 601⟩ (by simp)).mp hmem
    norm_num at h
  · exact (C6_housekeeping.2 1000 [⟨"aged599", 1000 - 599⟩]
      ⟨"aged599", 1000 - 599⟩ (by simp)).mpr (by norm_num)

/-- C10: when a 200 OCR response contains a block without the `text` key,
`get_ocr_text` raises instead of skipping the block, and a request that
reaches the OCR step with such a response is answered `500` with that
error message — never partial text. -/
theorem C10_missing_text_key (env : AnalyzeEnv)
    (h1 : env.hasFileField = true) (h2 : env.origFilename ≠ "")
    (h3 : env.saveResult = .ok ()) (h4 : ∃ p, env.optimizeResult = .ok p)
    (resp : OcrResponse) (hresp : env.ocrResult = .ok resp)
    (hstatus : resp.status = 200) (hmiss : none ∈ resp.blocks) :
    ∃ m, get_ocr_text resp = .error m ∧
      (analyze env).1 = .json 500 (.err m) := by
  rcases h4 with ⟨p, hp⟩
  rcases extractTexts_error_of_none hmiss with ⟨m, hm⟩
  have hg : get_ocr_text resp = .error m := by
    simp [get_ocr_text, hstatus, hm, Except.map]
  exact ⟨m, hg, by simp [analyze, h1, h2, h3, hp, hresp, hg]⟩

theorem C10_witness :
    ∃ m, get_ocr_text ⟨200, "[{}]", [none]⟩ = .error m ∧
      (analyze ⟨true, "scan.png", 100, 100, .ok (),
        .ok "/tmp/uploads/100_scan.png", .ok ⟨200, "[{}]", [none]⟩,
        .ok "unused", .ok ()⟩).1 = .json 500 (.err m) :=
  C10_missing_text_key _ rfl (by decide) rfl ⟨_, rfl⟩
    ⟨200, "[{}]", [none]⟩ rfl rfl (by decide)

/-- C2 as stated is false: `file.save` (`app1.py` line 131) runs *before*
the `try:` of line 133, so an exception while saving the uploaded file is
not converted to the JSON 500 payload — it escapes the handler. -/
theorem C2_counterexample :
    (analyze ⟨true, "scan.png", 9, 9, .error "disk full",
      .ok "p", .ok ⟨200, "", [some "t"]⟩, .ok "x", .ok ()⟩).1 =
        .unhandled "disk full" ∧
    ∀ b : RespBody,
      (analyze ⟨true, "scan.png", 9, 9, .error "disk full",
        .ok "p", .ok ⟨200, "", [some "t"]⟩, .ok "x", .ok ()⟩).1 ≠
          .json 500 b := by
  refine ⟨rfl, ?_⟩
  intro b h
  simp [analyze] at h

/-- C2 (amended): once the guards pass and the upload is saved, an
exception in any step of the `try` block — optimization, OCR (transport or
response processing), LLM interpretation, or PDF rendering — is returned
as `500 {"error": <raw message>}`, and a success body is produced only
when every step completed (the PDF write included); exceptions while
saving the uploaded file are outside the `try` and escape the handler. -/
theorem C2_try_block_errors (env : AnalyzeEnv)
    (h1 : env.hasFileField = true) (h2 : env.origFilename ≠ "")
    (h3 : env.saveResult = .ok ()) :
    (∀ m, env.optimizeResult = .error m →
      (analyze env).1 = .json 500 (.err m)) ∧
    (∀ m, (∃ p, env.optimizeResult = .ok p) → env.ocrResult = .error m →
      (analyze env).1 = .json 500 (.err m)) ∧
    (∀ m resp, (∃ p, env.optimizeResult = .ok p) →
      env.ocrResult = .ok resp → get_ocr_text resp = .error m →
      (analyze env).1 = .json 500 (.err m)) ∧
    (∀ m resp t, (∃ p, env.optimizeResult = .ok p) →
      env.ocrResult = .ok resp → get_ocr_text resp = .ok t → t ≠ "" →
      env.llmResult = .error m →
      (analyze env).1 = .json 500 (.err m)) ∧
    (∀ m resp t a, (∃ p, env.optimizeResult = .ok p) →
      env.ocrResult = .ok resp → get_ocr_text resp = .ok t → t ≠ "" →
      env.llmResult = .ok a → env.pdfSaveResult = .error m →
      (analyze env).1 = .json 500 (.err m)) ∧
    (∀ st a u, (analyze env).1 = .json st (.success a u) →
      st = 200 ∧ env.llmResult = .ok a ∧ env.pdfSaveResult = .ok () ∧
      Event.savePdf (OUTPUT_FOLDER ++ "/" ++
        ("Report_Analysis_" ++ toString env.pdfTime ++ ".pdf")) ∈
          (analyze env).2) := by
  refine ⟨?_, ?_, ?_, ?_, ?_, ?_⟩
  · intro m hm
    simp [analyze, h1, h2, h3, hm]
  · rintro m ⟨p, hp⟩ hm
    simp [analyze, h1, h2, h3, hp, hm]
  · rintro m resp ⟨p, hp⟩ hresp hg
    simp [analyze, h1, h2, h3, hp, hresp, hg]
  · rintro m resp t ⟨p, hp⟩ hresp hg ht hm
    simp [analyze, h1, h2, h3, hp, hresp, hg, ht, hm]
  · rintro m resp t a ⟨p, hp⟩ hresp hg ht ha hm
    simp [analyze, h1, h2, h3, hp, hresp, hg, ht, ha, hm]
  · intro st a u h
    rcases hopt : env.optimizeResult with m | p
    · simp [analyze, h1, h2, h3, hopt] at h
    · rcases hocr : env.ocrResult with m | resp
      · simp [analyze, h1, h2, h3, hopt, hocr] at h
      · rcases hg : get_ocr_text resp with m | t
        · simp [analyze, h1, h2, h3, hopt, hocr, hg] at h
        · by_cases ht : t = ""
          · simp [analyze, h1, h2, h3, hopt, hocr, hg, ht] at h
          · rcases hllm : env.llmResult with m | a₀
            · simp [analyze, h1, h2, h3, hopt, hocr, hg, ht, hllm] at h
            · rcases hpdf : env.pdfSaveResult with m | u₀
              · simp [analyze, h1, h2, h3, hopt, hocr, hg, ht, hllm,
                  hpdf] at h
              · simp [analyze, h1, h2, h3, hopt, hocr, hg, ht, hllm,
                  hpdf] at h ⊢
                exact ⟨h.1.symm, h.2.1⟩

theorem C2_witness :
    (analyze ⟨true, "scan.png", 9, 9, .ok (),
      .error "cannot identify image file", .ok ⟨200, "", []⟩,
      .ok "x", .ok ()⟩).1 =
      .json 500 (.err "cannot identify image file") :=
  (C2_try_block_errors _ rfl (by decide) rfl).1
    "cannot identify image file" rfl

/-- Whether an event is the write of an uploaded file. -/
def Event.isSaveUpload : Event → Bool
  | .saveUpload _ => true
  | _ => false

/-- Whether an event is the write of the generated PDF. -/
def Event.isSavePdf : Event → Bool
  | .savePdf _ => true
  | _ => false

/-- A request that differs from `reqB` in its upload and its analysis but
runs in the same second (`pdfTime = 100`). -/
def reqA : AnalyzeEnv :=
  ⟨true, "a.png", 100, 100, .ok (), .ok "/tmp/uploads/100_a.png",
    .ok ⟨200, "", [some "hello"]⟩, .ok "analysis of A", .ok ()⟩

/-- A second, distinct request in the same second as `reqA`. -/
def reqB : AnalyzeEnv :=
  ⟨true, "b.png", 100, 100, .ok (), .ok "/tmp/uploads/100_b.png",
    .ok ⟨200, "", [some "world"]⟩, .ok "analysis of B", .ok ()⟩

/-- C9 as stated is false: the generated-PDF name is keyed only by the
second-resolution timestamp (`app1.py` line 199), so two distinct requests
handled in the same second write the same PDF path — the entity is shared
across requests and the second write updates it in place. -/
theorem C9_counterexample :
    reqA.origFilename ≠ reqB.origFilename ∧
    (analyze reqA).1 ≠ (analyze reqB).1 ∧
    Event.savePdf "/tmp/outputs/Report_Analysis_100.pdf" ∈ (analyze reqA).2 ∧
    Event.savePdf "/tmp/outputs/Report_Analysis_100.pdf" ∈ (analyze reqB).2 := by
  refine ⟨by decide, by decide, by decide, by decide⟩

/-- C9 (amended): within a single request the invariant holds — at most
one uploaded file is written, OCR runs at most once, the LLM is invoked at
most once and at most one PDF is written; sharing is only possible between
different requests whose second-resolution timestamps collide. -/
theorem C9_per_request_uniqueness (env : AnalyzeEnv) :
    ((analyze env).2.countP (fun e => e.isSaveUpload)) ≤ 1 ∧
    ((analyze env).2.count Event.ocrCall) ≤ 1 ∧
    ((analyze env).2.count Event.llmInvoke) ≤ 1 ∧
    ((analyze env).2.countP (fun e => e.isSavePdf)) ≤ 1 := by
  unfold analyze
  repeat' split
  all_goals simp [Event.isSaveUpload, Event.isSavePdf, List.count_cons,
    List.countP_cons, List.countP_nil, List.count_nil]

end MedAssist
